import Mathlib

/-!
Shallow embedding of the orbtk tiny-skia render context
(`src/orbtk_tinyskia/src/tinyskia/mod.rs`) and proofs about it.

Numeric `f64` values are modelled by real numbers; the pixel buffer and the
tiny-skia path builder are modelled by command traces (the embedding records
the calls made to the backend instead of rasterizing).  Repository types that
are only declared outside the studied subtree (`PathRect`, `RenderConfig`,
`Brush`, the font service and the tiny-skia backend surface) are modelled from
the specification; each such definition carries a doc comment saying so.
-/

noncomputable section

namespace Orb

/-- Full turn, `std::f64::consts::TAU` (`2π`). -/
def TAU : ℝ := 2 * Real.pi

/-- Quarter turn, `std::f64::consts::FRAC_PI_2` (`π/2`). -/
def FRAC_PI_2 : ℝ := Real.pi / 2

/-- `std::f64::consts::PI`. -/
def PI : ℝ := Real.pi

/-- `f64::EPSILON` (`2⁻⁵²`). -/
def EPSILON : ℝ := (2 : ℝ) ^ (-52 : ℤ)

/-- Truncation toward zero, as used by Rust `f64` remainder. -/
def ftrunc (x : ℝ) : ℤ := if 0 ≤ x then ⌊x⌋ else ⌈x⌉

/-- Rust `%` on `f64`: remainder with the sign of the dividend
(`a % b = a - b * trunc (a / b)`). -/
def frem (a b : ℝ) : ℝ := a - b * (ftrunc (a / b) : ℝ)

/-- Modelled from the spec: orbtk `Point`, a plain geometric value type. -/
@[ext]
structure Pt where
  x : ℝ
  y : ℝ
  deriving DecidableEq

/-- Modelled from the spec: orbtk `Size`, a plain geometric value type. -/
@[ext]
structure Size where
  width : ℝ
  height : ℝ
  deriving DecidableEq

/-- Modelled from the spec: orbtk `Rectangle` = position + size, axis aligned. -/
@[ext]
structure Rectangle where
  position : Pt
  size : Size
  deriving DecidableEq

/-- `end.distance(start)`: euclidean distance between two points. -/
def Pt.distance (a b : Pt) : ℝ := Real.sqrt ((a.x - b.x) ^ 2 + (a.y - b.y) ^ 2)

/-- Modelled from the spec: orbtk `Color`, four 8-bit channels with
`r`/`g`/`b`/`a` accessors. -/
structure Color where
  r : ℕ
  g : ℕ
  b : ℕ
  a : ℕ
  deriving DecidableEq

/-- Modelled from the spec: orbtk `Color::default()`. -/
def Color.default : Color := ⟨0, 0, 0, 0⟩

/-- tiny-skia `Color`: four float channels in `[0, 1]`. -/
structure TSColor where
  r : ℝ
  g : ℝ
  b : ℝ
  a : ℝ
  deriving DecidableEq

/-- tiny-skia `Color::from_rgba8`. -/
def TSColor.from_rgba8 (r g b a : ℕ) : TSColor :=
  ⟨(r : ℝ) / 255, (g : ℝ) / 255, (b : ℝ) / 255, (a : ℝ) / 255⟩

/-- tiny-skia `Color::set_alpha`. -/
def TSColor.set_alpha (c : TSColor) (a : ℝ) : TSColor := { c with a := a }

/-- tiny-skia `Color::WHITE`: opaque white. -/
def TSColor.WHITE : TSColor := ⟨1, 1, 1, 1⟩

/-- Modelled from the spec: a gradient stop, `(position ∈ [0,1], Color)`. -/
structure GradientStop where
  pos : ℝ
  color : Color
  deriving DecidableEq

/-- Modelled from the spec: a gradient displacement, expressed as a fraction
of the frame size. -/
structure Displacement where
  fx : ℝ
  fy : ℝ
  deriving DecidableEq

/-- Modelled from the spec: `displacement.pixels(frame.size())` converts the
fractional displacement to pixels. -/
def Displacement.pixels (d : Displacement) (s : Size) : Pt :=
  ⟨d.fx * s.width, d.fy * s.height⟩

/-- Modelled from the spec: a named gradient direction. -/
inductive RelDir
  | toRight
  | toLeft
  | toTop
  | toBottom
  deriving DecidableEq

/-- Modelled from the spec: `direction.cross(width, height)` resolves a named
direction to a canonical start/end pair spanning the frame. -/
def RelDir.cross : RelDir → ℝ → ℝ → Pt × Pt
  | .toRight, w, _ => (⟨0, 0⟩, ⟨w, 0⟩)
  | .toLeft, w, _ => (⟨w, 0⟩, ⟨0, 0⟩)
  | .toTop, _, h => (⟨0, h⟩, ⟨0, 0⟩)
  | .toBottom, _, h => (⟨0, 0⟩, ⟨0, h⟩)

/-- Modelled from the spec: `LinearGradientCoords` — explicit endpoints,
angle + displacement, or named direction + displacement. -/
inductive LinearGradientCoords
  | ends (start endp : Pt)
  | angle (angle : ℝ) (displacement : Displacement)
  | direction (direction : RelDir) (displacement : Displacement)
  deriving DecidableEq

/-- Modelled from the spec: `GradientKind` (only `Linear` occurs). -/
inductive GradientKind
  | linear (coords : LinearGradientCoords)
  deriving DecidableEq

/-- Modelled from the spec: orbtk `Gradient` (`repeat` is rendered as `rep`). -/
structure Gradient where
  kind : GradientKind
  stops : List GradientStop
  rep : Bool
  deriving DecidableEq

/-- Modelled from the spec: orbtk `Brush`, a tagged union. -/
inductive Brush
  | solidColor (color : Color)
  | gradient (g : Gradient)
  deriving DecidableEq

/-- Modelled from the spec: orbtk `Brush::default()`. -/
def Brush.default : Brush := .solidColor Color.default

/-- Modelled from the spec: `linear_gradient_ends_from_angle` — a unit vector
derived from the angle, scaled to the half extent of the frame (the endpoint
geometry of a circle inscribed in the frame, rotated by the angle). -/
def linear_gradient_ends_from_angle (angle : ℝ) (s : Size) : Pt :=
  ⟨Real.sin angle * (s.width / 2), -Real.cos angle * (s.height / 2)⟩

/-- A resolved tiny-skia gradient stop. -/
structure TSGradientStop where
  pos : ℝ
  color : TSColor
  deriving DecidableEq

/-- tiny-skia `SpreadMode` (`Pad` or `Repeat`, the latter rendered `rep`). -/
inductive SpreadMode
  | pad
  | rep
  deriving DecidableEq

/-- tiny-skia `Shader`: solid color or linear gradient. -/
inductive Shader
  | solidColor (c : TSColor)
  | linearGradient (start endp : Pt) (stops : List TSGradientStop) (spread : SpreadMode)
  deriving DecidableEq

/-- tiny-skia `Paint` (only the fields the wrapper sets). -/
structure Paint where
  shader : Shader
  anti_alias : Bool
  deriving DecidableEq

/-- Modelled from the spec: the rasterizer backend (`tiny_skia::LinearGradient::new`)
rejects a degenerate linear-gradient definition — coincident endpoints or no
stops — and accepts any other definition unchanged. -/
def LinearGradient.new (start endp : Pt) (stops : List TSGradientStop)
    (spread : SpreadMode) : Option Shader :=
  if start = endp ∨ stops = [] then none
  else some (Shader.linearGradient start endp stops spread)

/-- Modelled from the spec: `build_unit_percent_gradient` remaps each stop onto
the concrete axis span — a pass-through for fractional positions — applying the
supplied conversion to every stop in order. -/
def build_unit_percent_gradient (stops : List GradientStop) (_dist : ℝ)
    (f : ℝ → Color → TSGradientStop) : List TSGradientStop :=
  stops.map fun s => f s.pos s.color

/-- The `match coords` arm of `paint_from_brush`: resolve abstract linear
gradient coordinates to concrete start/end points against the frame. -/
def resolveLinear (coords : LinearGradientCoords) (frame : Rectangle) : Pt × Pt :=
  match coords with
  | .ends s e =>
      (⟨s.x + frame.position.x, s.y + frame.position.y⟩,
       ⟨e.x + frame.position.x, e.y + frame.position.y⟩)
  | .angle angle displacement =>
      let z := linear_gradient_ends_from_angle angle frame.size
      let disp := displacement.pixels frame.size
      (⟨frame.position.x + frame.size.width / 2 + -z.x + disp.x,
        frame.position.y + frame.size.height / 2 + -z.y + disp.y⟩,
       ⟨frame.position.x + frame.size.width / 2 + z.x + disp.x,
        frame.position.y + frame.size.height / 2 + z.y + disp.y⟩)
  | .direction direction displacement =>
      let se := RelDir.cross direction frame.size.width frame.size.height
      let disp := displacement.pixels frame.size
      (⟨se.1.x + frame.position.x + disp.x, se.1.y + frame.position.y + disp.y⟩,
       ⟨se.2.x + frame.position.x + disp.x, se.2.y + frame.position.y + disp.y⟩)

/-- `RenderContext2D::paint_from_brush`. -/
def paint_from_brush (brush : Brush) (frame : Rectangle) (global_alpha : ℝ) : Paint :=
  let shader :=
    match brush with
    | .solidColor color =>
        let c := TSColor.from_rgba8 color.b color.g color.r color.a
        Shader.solidColor (c.set_alpha (c.a * global_alpha))
    | .gradient ⟨.linear coords, stops, rep⟩ =>
        let spread := if rep then SpreadMode.rep else SpreadMode.pad
        let se := resolveLinear coords frame
        let g_stops := build_unit_percent_gradient stops (se.2.distance se.1) fun p c =>
          let col := TSColor.from_rgba8 c.b c.g c.r c.a
          ⟨p, col.set_alpha (col.a * global_alpha)⟩
        (LinearGradient.new se.1 se.2 g_stops spread).getD (Shader.solidColor TSColor.WHITE)
  { shader := shader, anti_alias := true }

/-- An axis-aligned bounding box, kept as min/max corners. -/
@[ext]
structure BBox where
  min_x : ℝ
  min_y : ℝ
  max_x : ℝ
  max_y : ℝ
  deriving DecidableEq

/-- Widen a bounding box to include one point. -/
def BBox.withPoint (b : BBox) (x y : ℝ) : BBox :=
  ⟨min b.min_x x, min b.min_y y, max b.max_x x, max b.max_y y⟩

/-- Modelled from the spec: orbtk `PathRect`, an incrementally updated optional
bounding rectangle; starts empty (`None`). -/
@[ext]
structure PathRect where
  bound : Option BBox
  deriving DecidableEq

/-- Modelled from the spec: union one reported point into the running bound. -/
def PathRect.record_point (p : PathRect) (x y : ℝ) : PathRect :=
  match p.bound with
  | none => ⟨some ⟨x, y, x, y⟩⟩
  | some b => ⟨some (b.withPoint x y)⟩

/-- Modelled from the spec: `PathRect::record_move_to`. -/
def PathRect.record_move_to (p : PathRect) (x y : ℝ) : PathRect :=
  p.record_point x y

/-- Modelled from the spec: `PathRect::record_line_to`. -/
def PathRect.record_line_to (p : PathRect) (x y : ℝ) : PathRect :=
  p.record_point x y

/-- Modelled from the spec: `PathRect::record_rect` unions the rectangle's
extent (both corners). -/
def PathRect.record_rect (p : PathRect) (x y width height : ℝ) : PathRect :=
  (p.record_point x y).record_point (x + width) (y + height)

/-- Modelled from the spec: `PathRect::record_bezier_curve_to` — control points
count toward the bound. -/
def PathRect.record_bezier_curve_to (p : PathRect) (cp1x cp1y cp2x cp2y x y : ℝ) : PathRect :=
  (((p.record_point cp1x cp1y).record_point cp2x cp2y).record_point x y)

/-- Modelled from the spec: `PathRect::record_quadratic_curve_to` — the control
point counts toward the bound. -/
def PathRect.record_quadratic_curve_to (p : PathRect) (cpx cpy x y : ℝ) : PathRect :=
  ((p.record_point cpx cpy).record_point x y)

/-- Modelled from the spec: `PathRect::record_arc` unions the arc's full
circumscribing square (center ± radius on both axes). -/
def PathRect.record_arc (p : PathRect) (x y radius _start_angle _end_angle : ℝ) : PathRect :=
  (p.record_point (x - radius) (y - radius)).record_point (x + radius) (y + radius)

/-- Modelled from the spec: `PathRect::record_path_close` reports no new extent. -/
def PathRect.record_path_close (p : PathRect) : PathRect := p

/-- Modelled from the spec: `PathRect::record_clip` records a clip marker but
no new extent. -/
def PathRect.record_clip (p : PathRect) : PathRect := p

/-- Modelled from the spec: `PathRect::get_rect` — `None` when no path op has
occurred since the last rebirth, otherwise the accumulated rectangle by value. -/
def PathRect.get_rect (p : PathRect) : Option Rectangle :=
  p.bound.map fun b =>
    ⟨⟨b.min_x, b.min_y⟩, ⟨b.max_x - b.min_x, b.max_y - b.min_y⟩⟩

/-- Modelled from the spec: `PathRect::rebirth` resets the bound to empty. -/
def PathRect.rebirth (_p : PathRect) : PathRect := ⟨none⟩

/-- A tiny-skia `PathBuilder` command (the builder is modelled by its trace). -/
inductive PBCmd
  | moveTo (x y : ℝ)
  | lineTo (x y : ℝ)
  | cubicTo (x1 y1 x2 y2 x y : ℝ)
  | quadTo (x1 y1 x y : ℝ)
  | close
  | pushRect (x y w h : ℝ)
  deriving DecidableEq

/-- Number of cubic segments in a builder trace. -/
def countCubics : List PBCmd → ℕ
  | [] => 0
  | PBCmd.cubicTo _ _ _ _ _ _ :: l => countCubics l + 1
  | _ :: l => countCubics l

/-- `RenderContext2D::arc_fragment`: the builder commands emitted for an arc
segment of at most 90° — one cubic, skipped when the discriminant is not
positive. -/
def arcFragmentOps (x y radius start_angle end_angle : ℝ) : List PBCmd :=
  let end_sin := Real.sin end_angle
  let end_cos := Real.cos end_angle
  let end_x := x + end_cos * radius
  let end_y := y + end_sin * radius
  let start_sin := Real.sin start_angle
  let start_cos := Real.cos start_angle
  let start_x := x + start_cos * radius
  let start_y := y + start_sin * radius
  let t1x := y - start_y
  let t1y := start_x - x
  let t2x := end_y - y
  let t2y := x - end_x
  let dx := (start_x + end_x) / 2 - x
  let dy := (start_y + end_y) / 2 - y
  let tx := 3 / 8 * (t1x + t2x)
  let ty := 3 / 8 * (t1y + t2y)
  let a := tx * tx + ty * ty
  let b := dx * tx + dy * ty
  let c := dx * dx + dy * dy - radius * radius
  let d := b * b - a * c
  if 0 < d then
    let k := (Real.sqrt d - b) / a
    [PBCmd.cubicTo (start_x + k * t1x) (start_y + k * t1y) (end_x + k * t2x) (end_y + k * t2y)
      (x + end_cos * radius) (y + end_sin * radius)]
  else []

/-- The angle normalization at the top of `arc`: a negative angle wraps by a
full turn (`TAU - -angle`). -/
def arcNorm (angle : ℝ) : ℝ := if angle < 0 then TAU - -angle else angle

/-- The opening move of `arc`: move to the center and line to the arc's start
point when the sweep is below a full turn, otherwise move straight to the
start point. -/
def arcPrelude (x y radius ns ne : ℝ) : List PBCmd :=
  let start_sin := Real.sin ns
  let start_cos := Real.cos ns
  if ne - ns < TAU then
    [PBCmd.moveTo x y, PBCmd.lineTo (x + start_cos * radius) (y + start_sin * radius)]
  else
    [PBCmd.moveTo (x + start_cos * radius) (y + start_sin * radius)]

/-- The four quadrant cubics of `arc`, each emitted when its quadrant boundary
lies between the normalized start and end angles, with control-point offset
`premult_k = 0.552284749831 * radius`. -/
def arcQuadrants (x y radius start_angle end_angle : ℝ) : List PBCmd :=
  let premult_k := 0.552284749831 * radius
  (if start_angle ≤ 0 ∧ FRAC_PI_2 ≤ end_angle then
    [PBCmd.cubicTo (x + radius) (y + premult_k) (x + premult_k) (y + radius) x (y + radius)]
  else []) ++
  (if start_angle ≤ FRAC_PI_2 ∧ PI ≤ end_angle then
    [PBCmd.cubicTo (x - premult_k) (y + radius) (x - radius) (y + premult_k) (x - radius) y]
  else []) ++
  (if start_angle ≤ PI ∧ PI + FRAC_PI_2 ≤ end_angle then
    [PBCmd.cubicTo (x - radius) (y - premult_k) (x - premult_k) (y - radius) x (y - radius)]
  else []) ++
  (if start_angle ≤ PI + FRAC_PI_2 ∧ TAU ≤ end_angle then
    [PBCmd.cubicTo (x + premult_k) (y - radius) (x + radius) (y - premult_k) (x + radius) y]
  else [])

/-- The full builder trace of `RenderContext2D::arc` (everything the method
appends to the path builder, in order). -/
def arcOps (x y radius start_angle end_angle : ℝ) : List PBCmd :=
  let ns := arcNorm start_angle
  let ne := arcNorm end_angle
  arcPrelude x y radius ns ne ++
  (if ne - ns < FRAC_PI_2 then
    arcFragmentOps x y radius ns ne ++ [PBCmd.lineTo x y]
  else
    (if EPSILON < frem ns FRAC_PI_2 then
      arcFragmentOps x y radius ns (ns + FRAC_PI_2 - frem ns FRAC_PI_2)
    else []) ++
    arcQuadrants x y radius ns ne ++
    arcFragmentOps x y radius (ne - frem ne FRAC_PI_2) ne ++
    (if ne - ns < TAU then [PBCmd.lineTo x y] else []))

/-- Modelled from the spec: the font service contract — a parsed font offers
`measure_text(text, size) -> (width, height)` (glyph rendering is not needed
by the claims under study). -/
structure Font where
  measureText : String → ℝ → ℝ × ℝ

/-- Modelled from the spec: the font part of `RenderConfig` (family + size). -/
structure FontConfig where
  family : String
  font_size : ℝ

/-- Modelled from the spec: orbtk `RenderConfig` — fill style, stroke style,
line width, global alpha and font selection. -/
structure RenderConfig where
  fill_style : Brush
  stroke_style : Brush
  line_width : ℝ
  alpha : ℝ
  font_config : FontConfig

/-- Modelled from the spec: `RenderConfig::default()`. -/
def RenderConfig.default : RenderConfig :=
  ⟨Brush.default, Brush.default, 1, 1, ⟨"", 14⟩⟩

/-- orbtk `TextMetrics`: width/height of a measured string. -/
structure TextMetrics where
  width : ℝ
  height : ℝ
  deriving DecidableEq

/-- `TextMetrics::default()`. -/
def TextMetrics.default : TextMetrics := ⟨0, 0⟩

/-- tiny-skia `Transform` (2×3 affine matrix). -/
structure TSTransform where
  sx : ℝ
  kx : ℝ
  ky : ℝ
  sy : ℝ
  tx : ℝ
  ty : ℝ
  deriving DecidableEq

/-- `Transform::identity()`. -/
def TSTransform.identity : TSTransform := ⟨1, 0, 0, 1, 0, 0⟩

/-- A rasterizer call on the pixel buffer (the buffer is modelled by the trace
of draw calls made against it). -/
inductive PixCmd
  | fillAll (c : TSColor)
  | fillRectPx (x y w h : ℝ) (paint : Paint)

/-- tiny-skia `Pixmap`, modelled as its dimensions plus the trace of draw
calls applied to it. -/
structure Pixmap where
  width : ℕ
  height : ℕ
  cmds : List PixCmd

/-- The `State` snapshot pushed by `save()` (config, path bound, clip count,
transform). -/
structure SavedSt where
  config : RenderConfig
  path_rect : PathRect
  clips_count : ℕ
  transform : TSTransform

/-- The `RenderContext2D` state. -/
@[ext]
structure Ctx where
  background : Color
  clips_count : ℕ
  config : RenderConfig
  fill_paint : Paint
  fonts : List (String × Font)
  path_builder : List PBCmd
  path_rect : PathRect
  pixmap : Pixmap
  saved_states : List SavedSt
  stroke_paint : Paint
  transform : TSTransform

/-- Rust `f64 as u32` for the non-negative sizes used here. -/
def f64_as_u32 (x : ℝ) : ℕ := ⌊x⌋.toNat

/-- `RenderContext2D::new`. -/
def RenderContext2D.new (width height : ℝ) : Ctx :=
  { background := Color.default
    clips_count := 0
    config := RenderConfig.default
    fill_paint := paint_from_brush Brush.default ⟨⟨0, 0⟩, ⟨0, 0⟩⟩ 1
    fonts := []
    path_builder := []
    path_rect := ⟨none⟩
    pixmap := ⟨f64_as_u32 width, f64_as_u32 height, []⟩
    saved_states := []
    stroke_paint := paint_from_brush Brush.default ⟨⟨0, 0⟩, ⟨0, 0⟩⟩ 1
    transform := TSTransform.identity }

/-- Font registry lookup (`self.fonts.get(family)`). -/
def lookupFont (fonts : List (String × Font)) (family : String) : Option Font :=
  (fonts.find? fun p => p.1 = family).map fun p => p.2

/-- `RenderContext2D::register_font`; the fallible font parser
(`Font::from_bytes`, modelled from the spec: parse failure silently skips the
family) is passed in as `from_bytes`. -/
def Ctx.register_font (c : Ctx) (from_bytes : List ℕ → Option Font)
    (family : String) (font_file : List ℕ) : Ctx :=
  if c.fonts.any fun p => p.1 = family then c
  else
    match from_bytes font_file with
    | some font => { c with fonts := (family, font) :: c.fonts }
    | none => c

/-- `RenderContext2D::set_alpha`. -/
def Ctx.set_alpha (c : Ctx) (alpha : ℝ) : Ctx :=
  { c with config := { c.config with alpha := alpha } }

/-- `RenderContext2D::set_font_family`. -/
def Ctx.set_font_family (c : Ctx) (family : String) : Ctx :=
  { c with config :=
      { c.config with font_config := { c.config.font_config with family := family } } }

/-- `RenderContext2D::set_font_size` (note the source stores `size + 4.0`). -/
def Ctx.set_font_size (c : Ctx) (size : ℝ) : Ctx :=
  { c with config :=
      { c.config with font_config := { c.config.font_config with font_size := size + 4 } } }

/-- `RenderContext2D::set_line_width`. -/
def Ctx.set_line_width (c : Ctx) (line_width : ℝ) : Ctx :=
  { c with config := { c.config with line_width := line_width } }

/-- `RenderContext2D::set_fill_style`. -/
def Ctx.set_fill_style (c : Ctx) (fill_style : Brush) : Ctx :=
  { c with config := { c.config with fill_style := fill_style } }

/-- `RenderContext2D::set_stroke_style`. -/
def Ctx.set_stroke_style (c : Ctx) (stroke_style : Brush) : Ctx :=
  { c with config := { c.config with stroke_style := stroke_style } }

/-- `RenderContext2D::set_background`. -/
def Ctx.set_background (c : Ctx) (background : Color) : Ctx :=
  { c with background := background }

/-- `RenderContext2D::measure_text`. -/
def Ctx.measure_text (c : Ctx) (text : String) : TextMetrics :=
  if text = "" then TextMetrics.default
  else
    match lookupFont c.fonts c.config.font_config.family with
    | some font =>
        ⟨(font.measureText text c.config.font_config.font_size).1,
         (font.measureText text c.config.font_config.font_size).2⟩
    | none => TextMetrics.default

/-- `RenderContext2D::measure` (returns the metrics together with the mutated
context, since the source takes `&mut self`). -/
def Ctx.measure (c : Ctx) (text : String) (font_size : ℝ) (family : String) :
    TextMetrics × Ctx :=
  let c1 := (c.set_font_family family).set_font_size font_size
  (c1.measure_text text, c1)

/-- `RenderContext2D::fill_rect`. -/
def Ctx.fill_rect (c : Ctx) (x y width height : ℝ) : Ctx :=
  if 0 < width ∧ 0 < height then
    let pr := c.path_rect.record_rect x y width height
    let rect := pr.get_rect.getD ⟨⟨0, 0⟩, ⟨0, 0⟩⟩
    let fp := paint_from_brush c.config.fill_style rect c.config.alpha
    { c with
      path_rect := pr
      fill_paint := fp
      pixmap := { c.pixmap with
        cmds := c.pixmap.cmds ++ [PixCmd.fillRectPx (⌊x⌋ : ℝ) (⌊y⌋ : ℝ) width height fp] } }
  else c

/-- `RenderContext2D::begin_path`. -/
def Ctx.begin_path (c : Ctx) : Ctx :=
  { c with path_builder := [], path_rect := c.path_rect.rebirth }

/-- `RenderContext2D::move_to`. -/
def Ctx.move_to (c : Ctx) (x y : ℝ) : Ctx :=
  { c with
    path_builder := c.path_builder ++ [PBCmd.moveTo x y]
    path_rect := c.path_rect.record_move_to x y }

/-- `RenderContext2D::line_to`. -/
def Ctx.line_to (c : Ctx) (x y : ℝ) : Ctx :=
  { c with
    path_builder := c.path_builder ++ [PBCmd.lineTo x y]
    path_rect := c.path_rect.record_line_to x y }

/-- `RenderContext2D::bezier_curve_to`. -/
def Ctx.bezier_curve_to (c : Ctx) (cp1x cp1y cp2x cp2y x y : ℝ) : Ctx :=
  { c with
    path_builder := c.path_builder ++ [PBCmd.cubicTo cp1x cp1y cp2x cp2y x y]
    path_rect := c.path_rect.record_bezier_curve_to cp1x cp1y cp2x cp2y x y }

/-- `RenderContext2D::quadratic_curve_to`. -/
def Ctx.quadratic_curve_to (c : Ctx) (cpx cpy x y : ℝ) : Ctx :=
  { c with
    path_builder := c.path_builder ++ [PBCmd.quadTo cpx cpy x y]
    path_rect := c.path_rect.record_quadratic_curve_to cpx cpy x y }

/-- `RenderContext2D::rect`. -/
def Ctx.rect (c : Ctx) (x y width height : ℝ) : Ctx :=
  { c with
    path_builder := c.path_builder ++ [PBCmd.pushRect x y width height]
    path_rect := c.path_rect.record_rect x y width height }

/-- `RenderContext2D::close_path`. -/
def Ctx.close_path (c : Ctx) : Ctx :=
  { c with
    path_builder := c.path_builder ++ [PBCmd.close]
    path_rect := c.path_rect.record_path_close }

/-- `RenderContext2D::arc` (records the tracker, then appends the arc's
builder commands). -/
def Ctx.arc (c : Ctx) (x y radius start_angle end_angle : ℝ) : Ctx :=
  { c with
    path_builder := c.path_builder ++ arcOps x y radius start_angle end_angle
    path_rect := c.path_rect.record_arc x y radius start_angle end_angle }

/-- `RenderContext2D::save`. -/
def Ctx.save (c : Ctx) : Ctx :=
  { c with saved_states :=
      (⟨c.config, c.path_rect, c.clips_count, c.transform⟩ : SavedSt) :: c.saved_states }

/-- `RenderContext2D::restore` (no-op on an empty stack). -/
def Ctx.restore (c : Ctx) : Ctx :=
  match c.saved_states with
  | [] => c
  | s :: rest =>
      { c with
        config := s.config
        path_rect := s.path_rect
        clips_count := s.clips_count
        transform := s.transform
        saved_states := rest }

/-- `save()` iterated `n` times. -/
def Ctx.saveN : ℕ → Ctx → Ctx
  | 0, c => c
  | n + 1, c => Ctx.saveN n c.save

/-- `restore()` iterated `n` times. -/
def Ctx.restoreN : ℕ → Ctx → Ctx
  | 0, c => c
  | n + 1, c => Ctx.restoreN n c.restore

/-- `RenderContext2D::clear`: a solid brush fills the pixmap directly; any
other brush computes an (unused) paint for the full surface and routes through
`fill_rect`. -/
def Ctx.clear (c : Ctx) (brush : Brush) : Ctx :=
  match brush with
  | .solidColor color =>
      { c with pixmap := { c.pixmap with
          cmds := c.pixmap.cmds ++
            [PixCmd.fillAll (TSColor.from_rgba8 color.b color.g color.r color.a)] } }
  | .gradient g =>
      let _paint := paint_from_brush (.gradient g)
        ⟨⟨0, 0⟩, ⟨(c.pixmap.width : ℝ), (c.pixmap.height : ℝ)⟩⟩ 1
      c.fill_rect 0 0 (c.pixmap.width : ℝ) (c.pixmap.height : ℝ)

/-- `RenderContext2D::start`: fill the buffer with the background color. -/
def Ctx.start (c : Ctx) : Ctx :=
  { c with pixmap := { c.pixmap with
      cmds := c.pixmap.cmds ++
        [PixCmd.fillAll
          (TSColor.from_rgba8 c.background.b c.background.g c.background.r c.background.a)] } }

/-- A record reported to the bounding tracker. -/
inductive TrackRec
  | moveTo (x y : ℝ)
  | lineTo (x y : ℝ)
  | bezier (cp1x cp1y cp2x cp2y x y : ℝ)
  | quad (cpx cpy x y : ℝ)
  | rect (x y w h : ℝ)
  | arcRec (x y radius sa ea : ℝ)
  | closeRec

/-- One observable side effect of a path-construction call: an append to the
path builder or a record into the bounding tracker. -/
inductive Evt
  | builder (c : PBCmd)
  | tracker (r : TrackRec)

/-- Whether an event is a tracker record. -/
def Evt.isTracker : Evt → Bool
  | .tracker _ => true
  | .builder _ => false

/-- The seven path-construction primitives of the render context. -/
inductive Prim
  | moveTo (x y : ℝ)
  | lineTo (x y : ℝ)
  | bezierCurveTo (cp1x cp1y cp2x cp2y x y : ℝ)
  | quadraticCurveTo (cpx cpy x y : ℝ)
  | rectP (x y w h : ℝ)
  | arcP (x y radius sa ea : ℝ)
  | closePath

/-- Whether a primitive is the `arc` call. -/
def Prim.isArc : Prim → Bool
  | .arcP _ _ _ _ _ => true
  | _ => false

/-- Chronological trace of builder appends and tracker records for each
primitive, in the order the source executes them (`arc` records the tracker
first; every other primitive appends to the builder first). -/
def primTrace : Prim → List Evt
  | .moveTo x y => [.builder (.moveTo x y), .tracker (.moveTo x y)]
  | .lineTo x y => [.builder (.lineTo x y), .tracker (.lineTo x y)]
  | .bezierCurveTo cp1x cp1y cp2x cp2y x y =>
      [.builder (.cubicTo cp1x cp1y cp2x cp2y x y), .tracker (.bezier cp1x cp1y cp2x cp2y x y)]
  | .quadraticCurveTo cpx cpy x y =>
      [.builder (.quadTo cpx cpy x y), .tracker (.quad cpx cpy x y)]
  | .rectP x y w h => [.builder (.pushRect x y w h), .tracker (.rect x y w h)]
  | .arcP x y radius sa ea =>
      .tracker (.arcRec x y radius sa ea) :: (arcOps x y radius sa ea).map Evt.builder
  | .closePath => [.builder .close, .tracker .closeRec]

/-- A trace satisfies the append-then-record discipline when no builder append
happens after a tracker record. -/
def noBuilderAfterTracker : List Evt → Bool
  | [] => true
  | .builder _ :: l => noBuilderAfterTracker l
  | .tracker _ :: l => l.all Evt.isTracker

/-- The configuration setters of the render context. -/
inductive SetterOp
  | setAlpha (alpha : ℝ)
  | setFontFamily (family : String)
  | setFontSize (size : ℝ)
  | setLineWidth (line_width : ℝ)
  | setFillStyle (fill_style : Brush)
  | setStrokeStyle (stroke_style : Brush)

/-- Apply one setter call to the context. -/
def applySetter (c : Ctx) : SetterOp → Ctx
  | .setAlpha a => c.set_alpha a
  | .setFontFamily f => c.set_font_family f
  | .setFontSize s => c.set_font_size s
  | .setLineWidth w => c.set_line_width w
  | .setFillStyle b => c.set_fill_style b
  | .setStrokeStyle b => c.set_stroke_style b

/-- Apply a sequence of setter calls, left to right. -/
def applySetters (ops : List SetterOp) (c : Ctx) : Ctx :=
  ops.foldl applySetter c

/-- The snapshot `save()` takes of a context. -/
def Ctx.snap (c : Ctx) : SavedSt :=
  ⟨c.config, c.path_rect, c.clips_count, c.transform⟩

/-! ## Theorems -/

/-- C7: `fill_rect` with non-positive width or height is a complete no-op:
the context — pixel buffer, path bound, cached paints, config — is unchanged. -/
theorem fill_rect_nonpos_noop (c : Ctx) (x y width height : ℝ)
    (h : width ≤ 0 ∨ height ≤ 0) : c.fill_rect x y width height = c := by
  unfold Ctx.fill_rect
  rw [if_neg]
  rcases h with h | h
  · exact fun hc => absurd hc.1 (not_lt.mpr h)
  · exact fun hc => absurd hc.2 (not_lt.mpr h)

/-- Witness for C7 at a concrete input. -/
theorem fill_rect_nonpos_noop_witness :
    (-1 : ℝ) ≤ 0 ∧
    (RenderContext2D.new 100 100).fill_rect 5 5 (-1) 7 = RenderContext2D.new 100 100 :=
  ⟨by norm_num, fill_rect_nonpos_noop (RenderContext2D.new 100 100) 5 5 (-1) 7
    (Or.inl (by norm_num))⟩

/-- C8: `register_font` is first-registration-wins — when the family is already
present, a later call for that family leaves the context, and in particular the
registry entry for that family, unchanged. -/
theorem register_font_first_wins (c : Ctx) (from_bytes : List ℕ → Option Font)
    (family : String) (font_file : List ℕ)
    (h : (c.fonts.any fun p => p.1 = family) = true) :
    c.register_font from_bytes family font_file = c ∧
    lookupFont (c.register_font from_bytes family font_file).fonts family =
      lookupFont c.fonts family := by
  unfold Ctx.register_font
  rw [if_pos h]
  exact ⟨rfl, rfl⟩

/-- Witness for C8 at a concrete input. -/
theorem register_font_first_wins_witness :
    ({ RenderContext2D.new 10 10 with
        fonts := [("serif", ⟨fun _ _ => (1, 2)⟩)] } : Ctx).register_font
      (fun _ => some ⟨fun _ _ => (3, 4)⟩) "serif" [0, 1, 2] =
    { RenderContext2D.new 10 10 with fonts := [("serif", ⟨fun _ _ => (1, 2)⟩)] } :=
  (register_font_first_wins _ _ "serif" [0, 1, 2] (by simp)).1

/-- C9: `set_font_size(s)` stores `s + 4`, and `measure(text, s, family)` leaves
the context's current font size at `s + 4` and measures the text at size `s + 4`. -/
theorem set_font_size_plus_four (c : Ctx) (s : ℝ) (text family : String) :
    (c.set_font_size s).config.font_config.font_size = s + 4 ∧
    (c.measure text s family).2.config.font_config.font_size = s + 4 ∧
    (c.measure text s family).1 =
      (if text = "" then TextMetrics.default
       else
         match lookupFont c.fonts family with
         | some font =>
             ⟨(font.measureText text (s + 4)).1, (font.measureText text (s + 4)).2⟩
         | none => TextMetrics.default) := by
  refine ⟨rfl, rfl, ?_⟩
  rfl

/-- C6: when the backend rejects the resolved linear-gradient definition, the
paint resolver substitutes an opaque, anti-aliased white solid paint instead of
failing. -/
theorem gradient_reject_white (coords : LinearGradientCoords) (stops : List GradientStop)
    (rep : Bool) (frame : Rectangle) (global_alpha : ℝ)
    (h : LinearGradient.new (resolveLinear coords frame).1 (resolveLinear coords frame).2
        (build_unit_percent_gradient stops
          ((resolveLinear coords frame).2.distance (resolveLinear coords frame).1) fun p c =>
            let col := TSColor.from_rgba8 c.b c.g c.r c.a
            ⟨p, col.set_alpha (col.a * global_alpha)⟩)
        (if rep then SpreadMode.rep else SpreadMode.pad) = none) :
    paint_from_brush (.gradient ⟨.linear coords, stops, rep⟩) frame global_alpha =
      ⟨Shader.solidColor TSColor.WHITE, true⟩ := by
  simp only [paint_from_brush]
  rw [h]
  rfl

/-- Witness for C6 at a concrete degenerate input (coincident endpoints). -/
theorem gradient_reject_white_witness :
    paint_from_brush
      (.gradient ⟨.linear (.ends ⟨0, 0⟩ ⟨0, 0⟩), [⟨0, Color.default⟩], false⟩)
      ⟨⟨3, 4⟩, ⟨10, 10⟩⟩ 1 = ⟨Shader.solidColor TSColor.WHITE, true⟩ :=
  gradient_reject_white (.ends ⟨0, 0⟩ ⟨0, 0⟩) [⟨0, Color.default⟩] false ⟨⟨3, 4⟩, ⟨10, 10⟩⟩ 1
    (by simp [LinearGradient.new, resolveLinear])

/-- A single setter only rewrites the configuration. -/
theorem applySetter_config (c : Ctx) (op : SetterOp) :
    ∃ cfg, applySetter c op = { c with config := cfg } := by
  cases op <;> exact ⟨_, rfl⟩

/-- A setter sequence only rewrites the configuration. -/
theorem applySetters_config (ops : List SetterOp) (c : Ctx) :
    ∃ cfg, applySetters ops c = { c with config := cfg } := by
  induction ops generalizing c with
  | nil => exact ⟨c.config, rfl⟩
  | cons op ops ih =>
      obtain ⟨cfg0, h0⟩ := applySetter_config c op
      obtain ⟨cfg, hc⟩ := ih (applySetter c op)
      exact ⟨cfg, by rw [show applySetters (op :: ops) c = applySetters ops (applySetter c op)
        from rfl, hc, h0]⟩

/-- `save()` iterated `n` times pushes `n` copies of the snapshot. -/
theorem saveN_eq (n : ℕ) (c : Ctx) :
    Ctx.saveN n c = { c with saved_states := List.replicate n c.snap ++ c.saved_states } := by
  induction n generalizing c with
  | zero => rfl
  | succ n ih =>
      rw [show Ctx.saveN (n + 1) c = Ctx.saveN n c.save from rfl, ih]
      simp only [Ctx.save, Ctx.snap]
      congr 1
      rw [List.replicate_succ', List.append_assoc]
      rfl

/-- Popping `k + 1` stacked copies of one snapshot restores that snapshot's
fields and leaves the remainder of the stack. -/
theorem restoreN_replicate (k : ℕ) :
    ∀ (c : Ctx) (s : SavedSt) (rest : List SavedSt),
      c.saved_states = List.replicate (k + 1) s ++ rest →
      Ctx.restoreN (k + 1) c =
        { c with
          config := s.config
          path_rect := s.path_rect
          clips_count := s.clips_count
          transform := s.transform
          saved_states := rest } := by
  induction k with
  | zero =>
      intro c s rest h
      show Ctx.restoreN 0 c.restore = _
      unfold Ctx.restore
      rw [h]
      rfl
  | succ k ih =>
      intro c s rest h
      show Ctx.restoreN (k + 1) c.restore = _
      have hr : c.restore =
          { c with
            config := s.config
            path_rect := s.path_rect
            clips_count := s.clips_count
            transform := s.transform
            saved_states := List.replicate (k + 1) s ++ rest } := by
        unfold Ctx.restore
        rw [h]
        rfl
      rw [hr, ih _ s rest rfl]

/-- Restoring with an empty state stack is a no-op. -/
theorem restore_empty (c : Ctx) (h : c.saved_states = []) : c.restore = c := by
  unfold Ctx.restore
  split
  · rfl
  · rename_i s rest hs
    rw [h] at hs
    exact absurd hs (by simp)

/-- C5: `save()` `n ≥ 1` times, then arbitrary setter mutations, then
`restore()` — at every nesting step `1 ≤ k ≤ n` the configuration, path bound,
clip count and transform are back at their pre-save values; after all `n`
restores the whole context is back; and the `(n+1)`-th restore on the emptied
stack changes nothing. -/
theorem save_restore_roundtrip (n : ℕ) (hn : 1 ≤ n) (c : Ctx) (ops : List SetterOp) :
    (∀ k, 1 ≤ k → k ≤ n →
      (Ctx.restoreN k (applySetters ops (Ctx.saveN n c))).config = c.config ∧
      (Ctx.restoreN k (applySetters ops (Ctx.saveN n c))).path_rect = c.path_rect ∧
      (Ctx.restoreN k (applySetters ops (Ctx.saveN n c))).clips_count = c.clips_count ∧
      (Ctx.restoreN k (applySetters ops (Ctx.saveN n c))).transform = c.transform) ∧
    Ctx.restoreN n (applySetters ops (Ctx.saveN n c)) = c ∧
    (c.saved_states = [] →
      (Ctx.restoreN n (applySetters ops (Ctx.saveN n c))).restore =
        Ctx.restoreN n (applySetters ops (Ctx.saveN n c))) := by
  obtain ⟨cfg, hmid⟩ := applySetters_config ops (Ctx.saveN n c)
  have hmid' : applySetters ops (Ctx.saveN n c) =
      { c with config := cfg, saved_states := List.replicate n c.snap ++ c.saved_states } := by
    rw [hmid, saveN_eq]
  have hstep : ∀ k, 1 ≤ k → k ≤ n →
      Ctx.restoreN k (applySetters ops (Ctx.saveN n c)) =
        { c with
          config := c.snap.config
          path_rect := c.snap.path_rect
          clips_count := c.snap.clips_count
          transform := c.snap.transform
          saved_states := List.replicate (n - k) c.snap ++ c.saved_states } := by
    intro k hk1 hkn
    obtain ⟨k', rfl⟩ : ∃ k', k = k' + 1 := ⟨k - 1, (Nat.succ_pred_eq_of_pos hk1).symm⟩
    rw [hmid']
    rw [restoreN_replicate k' _ c.snap (List.replicate (n - (k' + 1)) c.snap ++ c.saved_states)
      (by
        simp only []
        rw [← List.append_assoc, ← List.replicate_add]
        congr 2
        omega)]
  constructor
  · intro k hk1 hkn
    rw [hstep k hk1 hkn]
    exact ⟨rfl, rfl, rfl, rfl⟩
  constructor
  · rw [hstep n hn le_rfl]
    simp only [Nat.sub_self, List.replicate_zero, List.nil_append, Ctx.snap]
  · intro hempty
    apply restore_empty
    rw [hstep n hn le_rfl]
    simp [Nat.sub_self, hempty]

/-- Witness for C5 at a concrete input (`n = 1`, one alpha mutation). -/
theorem save_restore_roundtrip_witness :
    Ctx.restoreN 1 (applySetters [SetterOp.setAlpha 0] (Ctx.saveN 1 (RenderContext2D.new 50 50))) =
      RenderContext2D.new 50 50 :=
  (save_restore_roundtrip 1 (by norm_num) (RenderContext2D.new 50 50)
    [SetterOp.setAlpha 0]).2.1

/-- C10: clearing with a solid brush only appends a whole-buffer fill using the
brush's own alpha (global alpha ignored) and touches nothing else; clearing
with a gradient brush routes through a full-surface `fill_rect`, which records
the full-surface rectangle in the bounding tracker, overwrites the cached fill
paint, and paints with the current fill style — not the brush passed in. -/
theorem clear_effects :
    (∀ (c : Ctx) (color : Color),
      c.clear (.solidColor color) =
        { c with pixmap := { c.pixmap with cmds := c.pixmap.cmds ++
            [PixCmd.fillAll (TSColor.from_rgba8 color.b color.g color.r color.a)] } }) ∧
    (∀ (c : Ctx) (g : Gradient),
      c.clear (.gradient g) = c.fill_rect 0 0 (c.pixmap.width : ℝ) (c.pixmap.height : ℝ)) ∧
    (∀ (c : Ctx) (g : Gradient), 0 < c.pixmap.width → 0 < c.pixmap.height →
      c.clear (.gradient g) =
        { c with
          path_rect := c.path_rect.record_rect 0 0 (c.pixmap.width : ℝ) (c.pixmap.height : ℝ)
          fill_paint := paint_from_brush c.config.fill_style
            ((c.path_rect.record_rect 0 0 (c.pixmap.width : ℝ)
              (c.pixmap.height : ℝ)).get_rect.getD ⟨⟨0, 0⟩, ⟨0, 0⟩⟩) c.config.alpha
          pixmap := { c.pixmap with cmds := c.pixmap.cmds ++
            [PixCmd.fillRectPx 0 0 (c.pixmap.width : ℝ) (c.pixmap.height : ℝ)
              (paint_from_brush c.config.fill_style
                ((c.path_rect.record_rect 0 0 (c.pixmap.width : ℝ)
                  (c.pixmap.height : ℝ)).get_rect.getD ⟨⟨0, 0⟩, ⟨0, 0⟩⟩)
                c.config.alpha)] } }) := by
  refine ⟨fun c color => rfl, fun c g => rfl, fun c g hw hh => ?_⟩
  show c.fill_rect 0 0 (c.pixmap.width : ℝ) (c.pixmap.height : ℝ) = _
  unfold Ctx.fill_rect
  rw [if_pos ⟨by exact_mod_cast hw, by exact_mod_cast hh⟩]
  simp only [Int.floor_zero, Int.cast_zero]

/-- Witness for C10's gradient branch at a concrete input. -/
theorem clear_effects_witness :
    (RenderContext2D.new 100 100).clear
      (.gradient ⟨.linear (.ends ⟨0, 0⟩ ⟨1, 1⟩), [], false⟩) =
      { RenderContext2D.new 100 100 with
        path_rect := (RenderContext2D.new 100 100).path_rect.record_rect 0 0
          ((RenderContext2D.new 100 100).pixmap.width : ℝ)
          ((RenderContext2D.new 100 100).pixmap.height : ℝ)
        fill_paint := paint_from_brush (RenderContext2D.new 100 100).config.fill_style
          (((RenderContext2D.new 100 100).path_rect.record_rect 0 0
            ((RenderContext2D.new 100 100).pixmap.width : ℝ)
            ((RenderContext2D.new 100 100).pixmap.height : ℝ)).get_rect.getD ⟨⟨0, 0⟩, ⟨0, 0⟩⟩)
          (RenderContext2D.new 100 100).config.alpha
        pixmap := { (RenderContext2D.new 100 100).pixmap with
          cmds := (RenderContext2D.new 100 100).pixmap.cmds ++
            [PixCmd.fillRectPx 0 0 ((RenderContext2D.new 100 100).pixmap.width : ℝ)
              ((RenderContext2D.new 100 100).pixmap.height : ℝ)
              (paint_from_brush (RenderContext2D.new 100 100).config.fill_style
                (((RenderContext2D.new 100 100).path_rect.record_rect 0 0
                  ((RenderContext2D.new 100 100).pixmap.width : ℝ)
                  ((RenderContext2D.new 100 100).pixmap.height : ℝ)).get_rect.getD
                  ⟨⟨0, 0⟩, ⟨0, 0⟩⟩)
                (RenderContext2D.new 100 100).config.alpha)] } } :=
  clear_effects.2.2 (RenderContext2D.new 100 100) ⟨.linear (.ends ⟨0, 0⟩ ⟨1, 1⟩), [], false⟩
    (by norm_num [RenderContext2D.new, f64_as_u32])
    (by norm_num [RenderContext2D.new, f64_as_u32])

/-- Cubic counting distributes over trace concatenation. -/
theorem countCubics_append (l1 l2 : List PBCmd) :
    countCubics (l1 ++ l2) = countCubics l1 + countCubics l2 := by
  induction l1 with
  | nil => simp [countCubics]
  | cons hd tl ih =>
      cases hd <;> simp [countCubics, ih]
      all_goals omega

/-- The arc prelude contains no cubic. -/
theorem countCubics_arcPrelude (x y radius ns ne : ℝ) :
    countCubics (arcPrelude x y radius ns ne) = 0 := by
  unfold arcPrelude
  split <;> rfl

/-- The fragment routine emits at most one command, a cubic. -/
theorem arcFragmentOps_length (x y radius sa ea : ℝ) :
    (arcFragmentOps x y radius sa ea).length ≤ 1 := by
  simp only [arcFragmentOps]
  split <;> simp

/-- The fragment routine's cubic count is its length. -/
theorem countCubics_arcFragmentOps (x y radius sa ea : ℝ) :
    countCubics (arcFragmentOps x y radius sa ea) =
      (arcFragmentOps x y radius sa ea).length := by
  simp only [arcFragmentOps]
  split <;> rfl

/-- C2 (amended): for a normalized sweep below 90° the arc emits its prelude,
the single fragment-routine output — at most one cubic, and the only cubics in
the whole trace — and the closing line back to the center; no quadrant cubic
is emitted.  (As literally stated the claim fails: a degenerate fragment emits
no cubic at all, see the counterexample.) -/
theorem arc_small_sweep (x y radius start_angle end_angle : ℝ)
    (h : arcNorm end_angle - arcNorm start_angle < FRAC_PI_2) :
    arcOps x y radius start_angle end_angle =
      arcPrelude x y radius (arcNorm start_angle) (arcNorm end_angle) ++
        arcFragmentOps x y radius (arcNorm start_angle) (arcNorm end_angle) ++
        [PBCmd.lineTo x y] ∧
    countCubics (arcOps x y radius start_angle end_angle) =
      (arcFragmentOps x y radius (arcNorm start_angle) (arcNorm end_angle)).length ∧
    countCubics (arcOps x y radius start_angle end_angle) ≤ 1 := by
  have h1 : arcOps x y radius start_angle end_angle =
      arcPrelude x y radius (arcNorm start_angle) (arcNorm end_angle) ++
        (arcFragmentOps x y radius (arcNorm start_angle) (arcNorm end_angle) ++
          [PBCmd.lineTo x y]) := by
    simp only [arcOps]
    rw [if_pos h]
  have h2 : countCubics (arcOps x y radius start_angle end_angle) =
      (arcFragmentOps x y radius (arcNorm start_angle) (arcNorm end_angle)).length := by
    rw [h1, countCubics_append, countCubics_append, countCubics_arcPrelude,
      countCubics_arcFragmentOps]
    simp [countCubics]
  exact ⟨by rw [h1, List.append_assoc], h2,
    h2 ▸ arcFragmentOps_length x y radius (arcNorm start_angle) (arcNorm end_angle)⟩

/-- Witness for C2's amended form at a concrete input (quarter-turn arc). -/
theorem arc_small_sweep_witness :
    arcOps 0 0 1 0 (Real.pi / 4) =
      arcPrelude 0 0 1 (arcNorm 0) (arcNorm (Real.pi / 4)) ++
        arcFragmentOps 0 0 1 (arcNorm 0) (arcNorm (Real.pi / 4)) ++
        [PBCmd.lineTo 0 0] ∧
    countCubics (arcOps 0 0 1 0 (Real.pi / 4)) =
      (arcFragmentOps 0 0 1 (arcNorm 0) (arcNorm (Real.pi / 4))).length ∧
    countCubics (arcOps 0 0 1 0 (Real.pi / 4)) ≤ 1 :=
  arc_small_sweep 0 0 1 0 (Real.pi / 4) (by
    have hpi := Real.pi_pos
    rw [show arcNorm 0 = 0 from if_neg (by norm_num),
      show arcNorm (Real.pi / 4) = Real.pi / 4 from if_neg (by linarith)]
    unfold FRAC_PI_2
    linarith)

/-- Counterexample to C2 as stated: a zero-sweep arc call has normalized sweep
below 90° but emits no cubic at all (the fragment discriminant is zero). -/
theorem arc_small_sweep_counterexample :
    arcNorm 1 - arcNorm 1 < FRAC_PI_2 ∧ countCubics (arcOps 0 0 1 1 1) = 0 ∧
      countCubics (arcOps 0 0 1 1 1) ≠ 1 := by
  have hpi := Real.pi_pos
  have hn1 : arcNorm (1 : ℝ) = 1 := if_neg (by norm_num)
  have hsw : arcNorm (1 : ℝ) - arcNorm (1 : ℝ) < FRAC_PI_2 := by
    rw [hn1]
    unfold FRAC_PI_2
    linarith
  have hfrag : arcFragmentOps 0 0 1 (arcNorm 1) (arcNorm 1) = [] := by
    simp only [arcFragmentOps]
    rw [if_neg]
    intro hd
    ring_nf at hd
    exact absurd hd (lt_irrefl 0)
  have hcount : countCubics (arcOps 0 0 1 1 1) = 0 := by
    simp only [arcOps]
    rw [if_pos hsw, hfrag, countCubics_append, countCubics_append, countCubics_arcPrelude]
    rfl
  exact ⟨hsw, hcount, by rw [hcount]; norm_num⟩

/-- C1 (amended): when the normalized start angle is at most `0` and the
normalized end angle is at least `2π` (which forces a normalized sweep of at
least a full turn), the arc emits exactly the prelude, the optional start
boundary fragment, all four quadrant cubics (with control-point offset
`0.552284749831 * radius`), and the end boundary fragment — and no closing
line back to the center, the sweep not being below a full turn.  (As literally
stated — four quadrant cubics for every sweep `≥ 2π` — the claim fails, see
the counterexample.) -/
theorem arc_full_circle (x y radius start_angle end_angle : ℝ)
    (h1 : arcNorm start_angle ≤ 0) (h2 : TAU ≤ arcNorm end_angle) :
    arcOps x y radius start_angle end_angle =
      arcPrelude x y radius (arcNorm start_angle) (arcNorm end_angle) ++
        ((if EPSILON < frem (arcNorm start_angle) FRAC_PI_2 then
            arcFragmentOps x y radius (arcNorm start_angle)
              (arcNorm start_angle + FRAC_PI_2 - frem (arcNorm start_angle) FRAC_PI_2)
          else []) ++
          arcQuadrants x y radius (arcNorm start_angle) (arcNorm end_angle) ++
          arcFragmentOps x y radius
            (arcNorm end_angle - frem (arcNorm end_angle) FRAC_PI_2) (arcNorm end_angle)) ∧
    (arcQuadrants x y radius (arcNorm start_angle) (arcNorm end_angle)).length = 4 ∧
    ¬ arcNorm end_angle - arcNorm start_angle < TAU := by
  have hpi := Real.pi_pos
  have hq : ¬ arcNorm end_angle - arcNorm start_angle < FRAC_PI_2 := by
    unfold FRAC_PI_2
    unfold TAU at h2
    push_neg
    linarith
  have hclose : ¬ arcNorm end_angle - arcNorm start_angle < TAU := by
    unfold TAU
    unfold TAU at h2
    push_neg
    linarith
  refine ⟨?_, ?_, hclose⟩
  · simp only [arcOps]
    rw [if_neg hq, if_neg hclose]
    simp [List.append_assoc]
  · unfold TAU at h2
    simp only [arcQuadrants, FRAC_PI_2, PI, TAU]
    rw [if_pos ⟨h1, by linarith⟩, if_pos ⟨by linarith, by linarith⟩,
      if_pos ⟨by linarith, by linarith⟩, if_pos ⟨by linarith, by linarith⟩]
    rfl

/-- Witness for C1's amended form at a concrete input (`arc(0, 0, 1, 0, 2π)`). -/
theorem arc_full_circle_witness :
    (arcQuadrants 0 0 1 (arcNorm 0) (arcNorm TAU)).length = 4 ∧
    ¬ arcNorm TAU - arcNorm 0 < TAU := by
  have hpi := Real.pi_pos
  have h1 : arcNorm (0 : ℝ) ≤ 0 := le_of_eq (if_neg (by norm_num))
  have h2 : TAU ≤ arcNorm TAU := by
    rw [show arcNorm TAU = TAU from if_neg (by unfold TAU; linarith)]
  exact ⟨(arc_full_circle 0 0 1 0 TAU h1 h2).2.1, (arc_full_circle 0 0 1 0 TAU h1 h2).2.2⟩

/-- Counterexample to C1 as stated: `arc(0, 0, 1, 1, 1 + 2π)` has normalized
sweep exactly `2π`, yet only three quadrant cubics are emitted (the first
quadrant's `start_angle ≤ 0` test fails for the normalized start angle `1`). -/
theorem arc_full_circle_counterexample :
    TAU ≤ arcNorm (1 + TAU) - arcNorm 1 ∧
    (arcQuadrants 0 0 1 (arcNorm 1) (arcNorm (1 + TAU))).length = 3 ∧
    (arcQuadrants 0 0 1 (arcNorm 1) (arcNorm (1 + TAU))).length ≠ 4 := by
  have hpi := Real.pi_pos
  have hpi3 := Real.pi_gt_three
  have hn1 : arcNorm (1 : ℝ) = 1 := if_neg (by norm_num)
  have hn2 : arcNorm (1 + TAU) = 1 + TAU := if_neg (by unfold TAU; linarith)
  have hlen : (arcQuadrants 0 0 1 (arcNorm 1) (arcNorm (1 + TAU))).length = 3 := by
    rw [hn1, hn2]
    simp only [arcQuadrants, FRAC_PI_2, PI, TAU]
    rw [if_neg (by intro hc; linarith [hc.1]),
      if_pos ⟨by linarith, by linarith⟩,
      if_pos ⟨by linarith, by linarith⟩,
      if_pos ⟨by linarith, by linarith⟩]
    rfl
  refine ⟨?_, hlen, by rw [hlen]; norm_num⟩
  rw [hn1, hn2]
  linarith

/-- C3 (amended): every path-construction primitive except `arc` appends to
the path builder before recording into the bounding tracker; `arc` records
into the bounding tracker first and only then appends its builder commands.
(As literally stated — builder before tracker for all seven primitives — the
claim fails on `arc`, see the counterexample.) -/
theorem path_ops_order :
    (∀ p : Prim, p.isArc = false → noBuilderAfterTracker (primTrace p) = true) ∧
    (∀ x y radius sa ea : ℝ,
      primTrace (.arcP x y radius sa ea) =
        .tracker (.arcRec x y radius sa ea) :: (arcOps x y radius sa ea).map Evt.builder) := by
  constructor
  · intro p hp
    cases p
    case arcP => simp [Prim.isArc] at hp
    all_goals rfl
  · intro x y radius sa ea
    rfl

/-- Witness for C3's amended form at a concrete non-arc primitive. -/
theorem path_ops_order_witness :
    noBuilderAfterTracker (primTrace (.moveTo 1 2)) = true :=
  path_ops_order.1 (.moveTo 1 2) rfl

/-- Counterexample to C3 as stated: the `arc` primitive records into the
bounding tracker before appending anything to the builder, so its trace
violates the append-then-record discipline. -/
theorem path_ops_order_counterexample :
    noBuilderAfterTracker (primTrace (.arcP 0 0 1 0 1)) = false := by
  have hpi := Real.pi_gt_three
  have hns : arcNorm (0 : ℝ) = 0 := if_neg (by norm_num)
  have hne : arcNorm (1 : ℝ) = 1 := if_neg (by norm_num)
  show ((arcOps 0 0 1 0 1).map Evt.builder).all Evt.isTracker = false
  simp only [arcOps, arcPrelude, hns, hne]
  rw [if_pos (show (1 : ℝ) - 0 < TAU by unfold TAU; linarith)]
  simp [Evt.isTracker]

/-- C4 (amended): `fill_rect` resolves the fill paint against the accumulated
path bound *after* recording the rectangle into it — which coincides with the
rectangle's own frame exactly when no geometry had been recorded before the
call.  (As literally stated — the rect's own frame regardless of recorded
geometry — the claim fails, see the counterexample.) -/
theorem fill_rect_paint_frame (c : Ctx) (x y width height : ℝ)
    (hw : 0 < width) (hh : 0 < height) :
    (c.fill_rect x y width height).fill_paint =
      paint_from_brush c.config.fill_style
        ((c.path_rect.record_rect x y width height).get_rect.getD ⟨⟨0, 0⟩, ⟨0, 0⟩⟩)
        c.config.alpha ∧
    (c.path_rect.bound = none →
      (c.fill_rect x y width height).fill_paint =
        paint_from_brush c.config.fill_style ⟨⟨x, y⟩, ⟨width, height⟩⟩ c.config.alpha) := by
  have hmain : (c.fill_rect x y width height).fill_paint =
      paint_from_brush c.config.fill_style
        ((c.path_rect.record_rect x y width height).get_rect.getD ⟨⟨0, 0⟩, ⟨0, 0⟩⟩)
        c.config.alpha := by
    unfold Ctx.fill_rect
    rw [if_pos ⟨hw, hh⟩]
  refine ⟨hmain, fun hnone => ?_⟩
  have hxw : x ≤ x + width := by linarith
  have hyh : y ≤ y + height := by linarith
  have h0 : c.path_rect.record_rect x y width height =
      ⟨some ⟨x, y, x + width, y + height⟩⟩ := by
    unfold PathRect.record_rect PathRect.record_point
    rw [hnone]
    simp [BBox.withPoint, min_eq_left hxw, min_eq_left hyh, max_eq_right hxw, max_eq_right hyh]
  rw [hmain, h0]
  have hframe : ((⟨some ⟨x, y, x + width, y + height⟩⟩ : PathRect).get_rect).getD
      ⟨⟨0, 0⟩, ⟨0, 0⟩⟩ = (⟨⟨x, y⟩, ⟨width, height⟩⟩ : Rectangle) := by
    simp only [PathRect.get_rect, Option.map, Option.getD]
    rw [show x + width - x = width by ring, show y + height - y = height by ring]
  rw [hframe]

/-- Witness for C4's amended form at a concrete input (fresh context, so the
frame is the rectangle itself). -/
theorem fill_rect_paint_frame_witness :
    ((RenderContext2D.new 20 20).fill_rect 1 2 3 4).fill_paint =
      paint_from_brush (RenderContext2D.new 20 20).config.fill_style
        ⟨⟨1, 2⟩, ⟨3, 4⟩⟩ (RenderContext2D.new 20 20).config.alpha :=
  (fill_rect_paint_frame (RenderContext2D.new 20 20) 1 2 3 4 (by norm_num)
    (by norm_num)).2 rfl

/-- Counterexample to C4 as stated: after a `line_to(-100, -100)`, the fill
paint of `fill_rect(0, 0, 10, 10)` with a gradient fill style is resolved
against the accumulated bound (position `(-100, -100)`), not against the
rectangle's own frame at `(0, 0)`. -/
theorem fill_rect_paint_frame_counterexample :
    (0 : ℝ) < 10 ∧
    ((((RenderContext2D.new 100 100).set_fill_style
        (.gradient ⟨.linear (.ends ⟨0, 0⟩ ⟨1, 1⟩),
          [⟨0, ⟨0, 0, 0, 255⟩⟩, ⟨1, ⟨255, 255, 255, 255⟩⟩], false⟩)).line_to
        (-100) (-100)).fill_rect 0 0 10 10).fill_paint ≠
      paint_from_brush
        ((((RenderContext2D.new 100 100).set_fill_style
          (.gradient ⟨.linear (.ends ⟨0, 0⟩ ⟨1, 1⟩),
            [⟨0, ⟨0, 0, 0, 255⟩⟩, ⟨1, ⟨255, 255, 255, 255⟩⟩], false⟩)).line_to
          (-100) (-100)).config.fill_style)
        ⟨⟨0, 0⟩, ⟨10, 10⟩⟩
        (((RenderContext2D.new 100 100).set_fill_style
          (.gradient ⟨.linear (.ends ⟨0, 0⟩ ⟨1, 1⟩),
            [⟨0, ⟨0, 0, 0, 255⟩⟩, ⟨1, ⟨255, 255, 255, 255⟩⟩], false⟩)).line_to
          (-100) (-100)).config.alpha := by
  refine ⟨by norm_num, ?_⟩
  intro heq
  simp only [RenderContext2D.new, RenderConfig.default, Ctx.set_fill_style, Ctx.line_to,
    Ctx.fill_rect, PathRect.record_line_to, PathRect.record_point, PathRect.record_rect,
    BBox.withPoint, PathRect.get_rect, Option.map, Option.getD, paint_from_brush,
    resolveLinear, build_unit_percent_gradient, LinearGradient.new, min_def, max_def] at heq
  norm_num [Paint.mk.injEq, Pt.mk.injEq] at heq
  simp at heq

end Orb
